import Mathlib

/-!
Verification of the contribution transaction pipeline of the medmachina
catalog (component `HowToContribute.vue`).  The script section of that
component is shallowly embedded below: the pure form-to-entry builder
(`generate` / `generateCompany`), the local validators
(`validationIssues` / `companyValidationIssues`), the manual PR helper
generators (`buildPRInstructions` / `buildCompanyPR`) and the two remote
submission protocols (`submitRobotToGitHub` / `submitCompanyToGitHub`).

The remote GitHub API is modelled by an environment record holding the
responses the store would give to each call of one submission attempt;
a submission run produces the resulting status message together with the
ordered trace of remote calls it issued, so that temporal properties
(which calls happen, with which branch, SHA and Authorization header)
become statements about that trace.
-/

namespace MedMachina

/-- JSON values as produced by `JSON.parse`, extended with `undefined` (the
JavaScript `undefined` returned by access to an absent property).
Numbers are modelled as integers, which covers every value the pipeline
produces (years, counts). -/
inductive Json where
  | null : Json
  | undefined : Json
  | bool (b : Bool) : Json
  | num (n : Int) : Json
  | str (s : String) : Json
  | arr (elems : List Json) : Json
  | obj (fields : List (String × Json)) : Json
deriving Repr

/-- JavaScript property access `v[k]`: on an object it yields the field
value or `undefined`; on `null`/`undefined` it throws a `TypeError`; on
the remaining primitives (and on arrays, whose elements the pipeline
never accesses by these names) it yields `undefined`. -/
def jsGet (v : Json) (k : String) : Except String Json :=
  match v with
  | .obj fields =>
    match fields.lookup k with
    | some w => .ok w
    | none => .ok .undefined
  | .null => .error ("TypeError: Cannot read properties of null (reading " ++ k ++ ")")
  | .undefined => .error ("TypeError: Cannot read properties of undefined (reading " ++ k ++ ")")
  | _ => .ok .undefined

/-- JavaScript strict equality `===` restricted to the shapes the
pipeline compares.  Primitive values compare by value; two object or
array operands are distinct references in every comparison the code
performs, so they compare unequal. -/
def jsStrictEq : Json → Json → Bool
  | .null, .null => true
  | .undefined, .undefined => true
  | .bool a, .bool b => a == b
  | .num a, .num b => a == b
  | .str a, .str b => a == b
  | _, _ => false

/-- ASCII case folding, the fragment of `toLowerCase` exercised by the
catalog data. -/
def jsToLower (s : String) : String :=
  String.mk (s.data.map Char.toLower)

/-- JavaScript `v.toLowerCase()`: defined exactly on strings, a
`TypeError` otherwise. -/
def jsToLowerCase (v : Json) : Except String String :=
  match v with
  | .str s => .ok (jsToLower s)
  | _ => .error "TypeError: toLowerCase is not a function"

/-- Rendering of a value inside a template literal (only ever applied to
strings and numbers by the pipeline). -/
def jsDisplay : Json → String
  | .null => "null"
  | .undefined => "undefined"
  | .bool b => if b then "true" else "false"
  | .num n => toString n
  | .str s => s
  | .arr _ => ""
  | .obj _ => "[object Object]"

/-- Display of `obj.k` inside a template literal (the error branch is
unreachable in every use below, where the object is a built entry). -/
def jsFieldDisplay (v : Json) (k : String) : String :=
  match jsGet v k with
  | .ok w => jsDisplay w
  | .error _ => ""

/-- String escaping performed by `JSON.stringify` for the characters the
pipeline can produce. -/
def escapeChar (c : Char) : String :=
  if c = '"' then "\\\""
  else if c = '\\' then "\\\\"
  else if c = '\n' then "\\n"
  else if c = '\t' then "\\t"
  else if c = '\r' then "\\r"
  else String.singleton c

def escapeString (s : String) : String :=
  String.join (s.data.map escapeChar)

def indentStr (n : Nat) : String :=
  String.join (List.replicate n " ")

mutual

/-- `JSON.stringify(v, null, 2)` at nesting depth `ind`. -/
def renderJson (ind : Nat) : Json → String
  | .null => "null"
  | .undefined => "null"
  | .bool b => if b then "true" else "false"
  | .num n => toString n
  | .str s => "\"" ++ escapeString s ++ "\""
  | .arr [] => "[]"
  | .arr (x :: xs) =>
    "[\n" ++ String.intercalate ",\n" (renderItems (ind + 1) (x :: xs))
      ++ "\n" ++ indentStr (2 * ind) ++ "]"
  | .obj [] => "\x7b\x7d"
  | .obj (f :: fs) =>
    "\x7b\n" ++ String.intercalate ",\n" (renderFields (ind + 1) (f :: fs))
      ++ "\n" ++ indentStr (2 * ind) ++ "\x7d"

def renderItems (ind : Nat) : List Json → List String
  | [] => []
  | x :: xs => (indentStr (2 * ind) ++ renderJson ind x) :: renderItems ind xs

def renderFields (ind : Nat) : List (String × Json) → List String
  | [] => []
  | (k, v) :: xs =>
    (indentStr (2 * ind) ++ "\"" ++ escapeString k ++ "\": " ++ renderJson ind v)
      :: renderFields ind xs

end

/-! ## Form model (the reactive refs of the component, as a snapshot) -/

/-- One row of the repeatable reference-URL list. -/
structure UrlEntry where
  caption : String
  url : String
deriving Repr, DecidableEq

/-- One row of the repeatable photo list (`addPhoto` initialises both
fields to the empty string). -/
structure PhotoEntry where
  url : String
  site : String
deriving Repr, DecidableEq

/-- One regulatory record row (`addReg` initialises `year`, `region`
and `type` to `null`). -/
structure RegulatoryEntry where
  body : String
  year : Option Int
  region : Option String
  type : Option String
  source_urls : List String
deriving Repr, DecidableEq

/-- Snapshot of the reactive robot form `form`. -/
structure RobotForm where
  name : String
  id : String
  introduction_year : Option Int
  description : String
  urls : List UrlEntry
  photos : List PhotoEntry
  tags : List String
  usages : List String
  regulatory : List RegulatoryEntry
deriving Repr, DecidableEq

/-- Snapshot of the reactive company form `companyForm`. -/
structure CompanyForm where
  name : String
  country : String
  description : String
  employee_count : Option Int
  founded_year : String
  company_type : String
  linkedin_url : String
  opencorporates_url : String
  urls : List UrlEntry
  robots : List String
deriving Repr, DecidableEq

/-! ## Local validators -/

/-- The regex `/^[A-Za-z0-9_.&]+$/` (`idPattern`). -/
def idPatternTest (s : String) : Bool :=
  s ≠ "" && s.data.all (fun c => c.isAlpha || c.isDigit || c = '_' || c = '.' || c = '&')

/-- The regex test `/^https?:\/\//.test(u)`. -/
def httpUrlOk (u : String) : Bool :=
  u.startsWith "http://" || u.startsWith "https://"

/-- The regex test `/^(19|20)\d\x7b2\x7d$/.test(s)` used for
`founded_year`. -/
def foundedYearOk (s : String) : Bool :=
  s.length = 4 && (s.take 2 = "19" || s.take 2 = "20")
    && (s.drop 2).data.all Char.isDigit

/-- `validId` (robot). -/
def validIdOf (f : RobotForm) : Bool := idPatternTest f.id

/-- `canGenerate` (robot). -/
def canGenerate (f : RobotForm) : Bool :=
  f.name ≠ "" && f.id ≠ "" && validIdOf f

/-- The indexed `forEach` pushes over `form.urls`. -/
def urlIssues (us : List UrlEntry) : List String :=
  us.enum.filterMap fun p =>
    if p.2.url ≠ "" && !httpUrlOk p.2.url then
      some ("URL #" ++ toString (p.1 + 1) ++ " must start with http or https.")
    else none

def photoIssues (ps : List PhotoEntry) : List String :=
  ps.enum.filterMap fun p =>
    if p.2.url ≠ "" && !httpUrlOk p.2.url then
      some ("Photo URL #" ++ toString (p.1 + 1) ++ " must start with http or https.")
    else none

def regIssues (rs : List RegulatoryEntry) : List String :=
  rs.enum.filterMap fun p =>
    match p.2.year with
    | some y =>
      if y < 1900 || y > 2100 then
        some ("Regulatory entry #" ++ toString (p.1 + 1) ++ " year out of range.")
      else none
    | none => none

/-- The computed `validationIssues` for the robot form, in source
order. -/
def validationIssues (f : RobotForm) : List String :=
  (if f.name = "" then ["Name is required."] else [])
    ++ (if f.id = "" then ["ID is required."]
        else if !validIdOf f then ["ID must match ^[A-Za-z0-9_.&]+$."] else [])
    ++ (match f.introduction_year with
        | some y =>
          if y < 1900 || y > 2100 then
            ["Introduction year must be between 1900 and 2100."]
          else []
        | none => [])
    ++ urlIssues f.urls
    ++ photoIssues f.photos
    ++ regIssues f.regulatory

def companyUrlIssues (us : List UrlEntry) : List String :=
  us.enum.filterMap fun p =>
    if p.2.url ≠ "" && !httpUrlOk p.2.url then
      some ("Company URL #" ++ toString (p.1 + 1) ++ " invalid.")
    else none

def companyRobotIssues (rs : List String) : List String :=
  rs.enum.filterMap fun p =>
    if !idPatternTest p.2 then
      some ("Robot ID #" ++ toString (p.1 + 1) ++ " invalid pattern.")
    else none

/-- The computed `companyValidationIssues`, in source order.  Note that
the robot-id pattern reuses `idPatternTest`, whose regex also rejects
the empty string exactly like the source pattern. -/
def companyValidationIssues (f : CompanyForm) : List String :=
  (if f.name = "" then ["Company name required."] else [])
    ++ (if f.country = "" then ["Country required."] else [])
    ++ companyUrlIssues f.urls
    ++ (if f.linkedin_url ≠ "" && !httpUrlOk f.linkedin_url then ["LinkedIn URL invalid."] else [])
    ++ (if f.opencorporates_url ≠ "" && !httpUrlOk f.opencorporates_url then ["OpenCorporates URL invalid."] else [])
    ++ (match f.employee_count with
        | some n => if n < 1 then ["Employee count must be >=1."] else []
        | none => [])
    ++ (if f.founded_year ≠ "" && !foundedYearOk f.founded_year then ["Founded year must be 19xx or 20xx."] else [])
    ++ companyRobotIssues f.robots

/-! ## EntryBuilder (the object construction inside `generate` and
`generateCompany`) -/

def urlJson (u : UrlEntry) : Json :=
  .obj [("caption", .str u.caption), ("url", .str u.url)]

def photoJson (p : PhotoEntry) : Json :=
  .obj [("url", .str p.url), ("site", .str p.site)]

def optIntJson : Option Int → Json
  | some n => .num n
  | none => .null

def optStrJson : Option String → Json
  | some s => .str s
  | none => .null

def regJson (r : RegulatoryEntry) : Json :=
  .obj [("body", .str r.body), ("year", optIntJson r.year),
        ("region", optStrJson r.region), ("type", optStrJson r.type),
        ("source_urls", .arr (r.source_urls.map .str))]

/-- The robot object assembled by `generate` (field assignment order
preserved).  `if(form.introduction_year)` is a JavaScript truthiness
test, so both `null` and `0` omit the field. -/
def buildRobot (f : RobotForm) : List (String × Json) :=
  [("name", Json.str f.name), ("id", Json.str f.id)]
    ++ (match f.introduction_year with
        | some y => if y ≠ 0 then [("introduction_year", Json.num y)] else []
        | none => [])
    ++ (if f.description ≠ "" then [("description", Json.str f.description)] else [])
    ++ (if f.urls ≠ [] then
          [("urls", Json.arr ((f.urls.filter fun u => u.caption ≠ "" && u.url ≠ "").map urlJson))]
        else [])
    ++ (if f.photos ≠ [] then
          [("photos", Json.arr ((f.photos.filter fun p => p.url ≠ "").map photoJson))]
        else [])
    ++ (if f.tags ≠ [] then [("tags", Json.arr (f.tags.map Json.str))] else [])
    ++ (if f.usages ≠ [] then [("usages", Json.arr (f.usages.map Json.str))] else [])
    ++ (let regFiltered := f.regulatory.filter fun r => r.body ≠ ""
        if regFiltered ≠ [] then [("regulatory", Json.arr (regFiltered.map regJson))] else [])

/-- The company object assembled by `generateCompany`.  Here
`employee_count` is guarded by `!== null` (not truthiness) and the urls
list is filtered before its emptiness test. -/
def buildCompany (f : CompanyForm) : List (String × Json) :=
  [("name", Json.str f.name), ("country", Json.str f.country)]
    ++ (if f.description ≠ "" then [("description", Json.str f.description)] else [])
    ++ (match f.employee_count with
        | some n => [("employee_count", Json.num n)]
        | none => [])
    ++ (if f.founded_year ≠ "" then [("founded_year", Json.str f.founded_year)] else [])
    ++ (if f.company_type ≠ "" then [("company_type", Json.str f.company_type)] else [])
    ++ (if f.linkedin_url ≠ "" then [("linkedin_url", Json.str f.linkedin_url)] else [])
    ++ (if f.opencorporates_url ≠ "" then [("opencorporates_url", Json.str f.opencorporates_url)] else [])
    ++ (let urls := f.urls.filter fun u => u.caption ≠ "" && u.url ≠ ""
        if urls ≠ [] then [("urls", Json.arr (urls.map urlJson))] else [])
    ++ (if f.robots ≠ [] then [("robots", Json.arr (f.robots.map Json.str))] else [])

/-! ## Branch / commit naming -/

/-- JavaScript `String.prototype.slice(0, n)`. -/
def jsSlice (s : String) (n : Nat) : String :=
  String.mk (s.data.take n)

/-- Whether a character matches the regex class `\s` (the forms only
ever contain ASCII whitespace). -/
def isJsWs (c : Char) : Bool :=
  c = ' ' || c = '\t' || c = '\n' || c = '\r' || c = '\x0b' || c = '\x0c'

/-- `.replace(/\s+/g, '-')`: each maximal whitespace run becomes one
dash. -/
def collapseWs : List Char → List Char
  | [] => []
  | c :: cs =>
    if isJsWs c then '-' :: collapseWs (cs.dropWhile isJsWs)
    else c :: collapseWs cs
termination_by l => l.length
decreasing_by
  all_goals simp only [List.length_cons]
  · exact Nat.lt_succ_of_le (List.Sublist.length_le (List.dropWhile_sublist _))
  · exact Nat.lt_succ_self _

/-- The company slug
`name.toLowerCase().replace(/\s+/g,'-').replace(/[^a-z0-9-]/g,'')`. -/
def companySlug (name : String) : String :=
  String.mk ((collapseWs (jsToLower name).data).filter fun c =>
    c.isLower || c.isDigit || c = '-')

/-- Default robot branch set by `generate`:
an `add-robot-` prefix on the id, sliced to 60 characters. -/
def robotGenBranchDefault (id : String) : String :=
  jsSlice ("add-robot-" ++ id) 60

/-- Robot branch used by the manual helper `buildPRInstructions`
(no slice in the source). -/
def robotHelperBranch (id : String) : String :=
  "add-robot-" ++ id

/-- Robot branch fallback inside `submitRobotToGitHub` (no slice). -/
def robotSubmitBranchDefault (id : String) : String :=
  "add-robot-" ++ id

/-- Default robot commit message set by `generate`. -/
def robotGenCommitDefault (name id : String) : String :=
  "feat(robot): add " ++ name ++ " (" ++ id ++ ")"

/-- Robot commit message emitted by the manual helper
`buildPRInstructions`. -/
def robotHelperCommitMsg (name id : String) : String :=
  "feat(robot): add " ++ name ++ " (" ++ id ++ ")"

/-- Default company branch set by `generateCompany` (sliced to 60). -/
def companyGenBranchDefault (name : String) : String :=
  jsSlice ("add-company-" ++ companySlug name) 60

/-- Company branch used by the manual helper `buildCompanyPR`
(sliced to 60). -/
def companyHelperBranch (name : String) : String :=
  jsSlice ("add-company-" ++ companySlug name) 60

/-- Company branch fallback inside `submitCompanyToGitHub`
(no slice in the source). -/
def companySubmitBranchDefault (name : String) : String :=
  "add-company-" ++ companySlug name

/-- Default company commit message set by `generateCompany`. -/
def companyGenCommitDefault (name : String) : String :=
  "feat(company): add " ++ name

/-- Company commit message emitted by the manual helper
`buildCompanyPR`. -/
def companyHelperCommitMsg (name : String) : String :=
  "feat(company): add " ++ name

/-! ## The `generate` / `generateCompany` actions as state transformers

They read the form snapshot and update the refs `generatedJson`,
`copied`, `robotBranch`, `robotCommitMsg` (resp. the company
counterparts).  The Ajv schema validation they also trigger only fills
an error display list and does not influence any of these four refs, so
it is not part of this state. -/

structure RobotGenState where
  generatedJson : String
  copied : Bool
  robotBranch : String
  robotCommitMsg : String
deriving Repr, DecidableEq

def generateStep (f : RobotForm) (s : RobotGenState) : RobotGenState :=
  if !canGenerate f || validationIssues f ≠ [] then s
  else
    { generatedJson := renderJson 0 (Json.obj (buildRobot f))
      copied := false
      robotBranch := if s.robotBranch = "" then robotGenBranchDefault f.id else s.robotBranch
      robotCommitMsg :=
        if s.robotCommitMsg = "" then robotGenCommitDefault f.name f.id else s.robotCommitMsg }

structure CompanyGenState where
  generatedCompanyJson : String
  copiedCompany : Bool
  companyBranch : String
  companyCommitMsg : String
deriving Repr, DecidableEq

def generateCompanyStep (f : CompanyForm) (s : CompanyGenState) : CompanyGenState :=
  if companyValidationIssues f ≠ [] then s
  else
    { generatedCompanyJson := renderJson 0 (Json.obj (buildCompany f))
      copiedCompany := false
      companyBranch := if s.companyBranch = "" then companyGenBranchDefault f.name else s.companyBranch
      companyCommitMsg :=
        if s.companyCommitMsg = "" then companyGenCommitDefault f.name else s.companyCommitMsg }

/-! ## Duplicate-key scans

`Array.prototype.some` evaluates its predicate left to right and stops
at the first `true`; a predicate that throws propagates the exception to
the surrounding `try`. -/

def someExcept (p : α → Except String Bool) : List α → Except String Bool
  | [] => .ok false
  | x :: xs =>
    match p x with
    | .error e => .error e
    | .ok true => .ok true
    | .ok false => someExcept p xs

/-- Predicate of the robot scan: `r => r.id === newObj.id` (the two
property reads evaluate left to right; a throw propagates). -/
def robotScanPred (newObj r : Json) : Except String Bool :=
  match jsGet r "id" with
  | .error e => .error e
  | .ok rid =>
    match jsGet newObj "id" with
    | .error e => .error e
    | .ok nid => .ok (jsStrictEq rid nid)

def robotDupScan (arr : List Json) (newObj : Json) : Except String Bool :=
  someExcept (robotScanPred newObj) arr

/-- Predicate of the company scan:
`c => c.name.toLowerCase() === newObj.name.toLowerCase()` (left operand
evaluated first; a throw propagates). -/
def companyScanPred (newObj c : Json) : Except String Bool :=
  match jsGet c "name" with
  | .error e => .error e
  | .ok cn =>
    match jsToLowerCase cn with
    | .error e => .error e
    | .ok cl =>
      match jsGet newObj "name" with
      | .error e => .error e
      | .ok nn =>
        match jsToLowerCase nn with
        | .error e => .error e
        | .ok nl => .ok (cl == nl)

def companyDupScan (arr : List Json) (newObj : Json) : Except String Bool :=
  someExcept (companyScanPred newObj) arr

/-- Exception-free characterisation of a robot natural-key match, used
to state properties about datasets containing a duplicate. -/
def robotMatches (newObj r : Json) : Bool :=
  match jsGet r "id", jsGet newObj "id" with
  | .ok a, .ok b => jsStrictEq a b
  | _, _ => false

/-- Exception-free characterisation of a company natural-key match
(case-insensitive name equality between string names). -/
def companyMatches (newObj c : Json) : Bool :=
  match jsGet c "name", jsGet newObj "name" with
  | .ok (.str a), .ok (.str b) => jsToLower a == jsToLower b
  | _, _ => false

/-! ## The remote submission protocol

One submission attempt is a fixed chain of five possible remote calls.
The environment record holds the responses the remote store would give
to each of them during this attempt; the run returns its user-visible
result together with the ordered trace of calls actually issued.
`fileParsed` is the dataset file's content after base64 decoding and
`JSON.parse` (`none` models the parse failure caught by the source);
the `content` field of a `putFile` call is the JSON text prior to the
injective `btoa` transport encoding. -/

inductive RemoteCall where
  | getRef (branch : String) (authHeader : Option String)
  | createRef (ref : String) (sha : String) (authHeader : Option String)
  | getFile (path : String) (ref : String) (authHeader : Option String)
  | putFile (path : String) (branch : String) (content : String)
      (message : String) (sha : String) (authHeader : Option String)
  | createPullRequest (head : String) (base : String) (title : String)
      (body : String) (authHeader : Option String)
deriving Repr, DecidableEq

/-- The result string finally stored in `robotSubmitResult` /
`companySubmitResult`, split by provenance: an early-return guard
message, a caught exception (displayed as an Error: prefix), the
non-fatal duplicate message, or success. -/
inductive TxResult where
  | guardFail (msg : String)
  | fatal (msg : String)
  | alreadyExists (msg : String)
  | success (prUrl : String)
deriving Repr, DecidableEq

structure SubmitOut where
  result : TxResult
  calls : List RemoteCall
deriving Repr, DecidableEq

structure RemoteEnv where
  getRefOk : Bool
  mainSha : String
  createRefStatus : Nat
  getFileOk : Bool
  fileSha : String
  fileParsed : Option (List Json)
  putFileOk : Bool
  prOk : Bool
  prUrl : String
deriving Repr

/-- `Response.ok`: status in the 2xx range. -/
def statusOk (s : Nat) : Bool := 200 ≤ s && s < 300

/-- Effective branch of a robot submission:
`robotBranch.value || add-robot-form.id`. -/
def robotBranchName (branchIn formId : String) : String :=
  if branchIn ≠ "" then branchIn else robotSubmitBranchDefault formId

/-- Effective branch of a company submission:
`companyBranch.value || add-company-slug(companyForm.name)`. -/
def companyBranchName (branchIn formName : String) : String :=
  if branchIn ≠ "" then branchIn else companySubmitBranchDefault formName

/-- Commit message / PR title of a robot submission:
`robotCommitMsg.value || feat(robot): add newObj.name (newObj.id)`. -/
def robotPutMessage (commitIn : String) (newObj : Json) : String :=
  if commitIn ≠ "" then commitIn
  else "feat(robot): add " ++ jsFieldDisplay newObj "name"
    ++ " (" ++ jsFieldDisplay newObj "id" ++ ")"

/-- Commit message / PR title of a company submission:
`companyCommitMsg.value || feat(company): add newObj.name`. -/
def companyPutMessage (commitIn : String) (newObj : Json) : String :=
  if commitIn ≠ "" then commitIn
  else "feat(company): add " ++ jsFieldDisplay newObj "name"

/-- `submitRobotToGitHub`.  `gen` is the parsed `generatedJson` state
(`none` models the empty string, caught by the second guard; in the
application it is always the object built by `generate`, since
`JSON.parse` inverts `JSON.stringify`).  `anyIssues` is
`anyRobotIssues` (local validation plus schema errors). -/
def submitRobot (token : String) (gen : Option Json) (anyIssues : Bool)
    (branchIn commitIn : String) (formId : String) (env : RemoteEnv) : SubmitOut :=
  if token = "" then ⟨.guardFail "GitHub token required.", []⟩
  else
    match gen with
    | none => ⟨.guardFail "Generate JSON first.", []⟩
    | some newObj =>
      if anyIssues then ⟨.guardFail "Fix validation/schema issues first.", []⟩
      else
        let auth := some ("Bearer " ++ token)
        let c1 := RemoteCall.getRef "main" auth
        if !env.getRefOk then ⟨.fatal "Failed to fetch main ref", [c1]⟩
        else
          let branchName := robotBranchName branchIn formId
          let c2 := RemoteCall.createRef ("refs/heads/" ++ branchName) env.mainSha auth
          if env.createRefStatus ≠ 422 && !statusOk env.createRefStatus then
            ⟨.fatal "Failed to create branch", [c1, c2]⟩
          else
            let c3 := RemoteCall.getFile "public/robots.json" "main" none
            if !env.getFileOk then ⟨.fatal "Failed to fetch robots.json", [c1, c2, c3]⟩
            else
              match env.fileParsed with
              | none => ⟨.fatal "Parse robots.json failed", [c1, c2, c3]⟩
              | some arr =>
                match robotDupScan arr newObj with
                | .error e => ⟨.fatal e, [c1, c2, c3]⟩
                | .ok true =>
                  ⟨.alreadyExists ("Robot id " ++ jsFieldDisplay newObj "id" ++ " already exists."),
                   [c1, c2, c3]⟩
                | .ok false =>
                  let content := renderJson 0 (Json.arr (arr ++ [newObj]))
                  let message := robotPutMessage commitIn newObj
                  let c4 := RemoteCall.putFile "public/robots.json" branchName content
                    message env.fileSha auth
                  if !env.putFileOk then
                    ⟨.fatal "Failed to update robots.json", [c1, c2, c3, c4]⟩
                  else
                    let c5 := RemoteCall.createPullRequest branchName "main" message
                      "Add new robot entry via web form." auth
                    if !env.prOk then ⟨.fatal "Failed to create PR", [c1, c2, c3, c4, c5]⟩
                    else ⟨.success env.prUrl, [c1, c2, c3, c4, c5]⟩

/-- `submitCompanyToGitHub`, analogous; `formName` is the current
`companyForm.name` used by the branch-name fallback. -/
def submitCompany (token : String) (gen : Option Json) (anyIssues : Bool)
    (branchIn commitIn : String) (formName : String) (env : RemoteEnv) : SubmitOut :=
  if token = "" then ⟨.guardFail "GitHub token required.", []⟩
  else
    match gen with
    | none => ⟨.guardFail "Generate company JSON first.", []⟩
    | some newObj =>
      if anyIssues then ⟨.guardFail "Fix validation/schema issues first.", []⟩
      else
        let auth := some ("Bearer " ++ token)
        let c1 := RemoteCall.getRef "main" auth
        if !env.getRefOk then ⟨.fatal "Failed to fetch main ref", [c1]⟩
        else
          let branchName := companyBranchName branchIn formName
          let c2 := RemoteCall.createRef ("refs/heads/" ++ branchName) env.mainSha auth
          if env.createRefStatus ≠ 422 && !statusOk env.createRefStatus then
            ⟨.fatal "Failed to create branch", [c1, c2]⟩
          else
            let c3 := RemoteCall.getFile "public/companies.json" "main" none
            if !env.getFileOk then ⟨.fatal "Failed to fetch companies.json", [c1, c2, c3]⟩
            else
              match env.fileParsed with
              | none => ⟨.fatal "Parse companies.json failed", [c1, c2, c3]⟩
              | some arr =>
                match companyDupScan arr newObj with
                | .error e => ⟨.fatal e, [c1, c2, c3]⟩
                | .ok true =>
                  ⟨.alreadyExists ("Company " ++ jsFieldDisplay newObj "name" ++ " already exists."),
                   [c1, c2, c3]⟩
                | .ok false =>
                  let content := renderJson 0 (Json.arr (arr ++ [newObj]))
                  let message := companyPutMessage commitIn newObj
                  let c4 := RemoteCall.putFile "public/companies.json" branchName content
                    message env.fileSha auth
                  if !env.putFileOk then
                    ⟨.fatal "Failed to update companies.json", [c1, c2, c3, c4]⟩
                  else
                    let c5 := RemoteCall.createPullRequest branchName "main" message
                      "Add new company entry via web form." auth
                    if !env.prOk then ⟨.fatal "Failed to create PR", [c1, c2, c3, c4, c5]⟩
                    else ⟨.success env.prUrl, [c1, c2, c3, c4, c5]⟩

/-! ## Trace observations -/

def putBranchOf : RemoteCall → Option String
  | .putFile _ b _ _ _ _ => some b
  | _ => none

/-- Branch names of the `PutFile` calls of a trace, in order. -/
def putBranches (l : List RemoteCall) : List String :=
  l.filterMap putBranchOf

def putShaOf : RemoteCall → Option String
  | .putFile _ _ _ _ sha _ => some sha
  | _ => none

/-- Expected SHAs of the `PutFile` calls of a trace. -/
def putShas (l : List RemoteCall) : List String :=
  l.filterMap putShaOf

def prHeadOf : RemoteCall → Option String
  | .createPullRequest h _ _ _ _ => some h
  | _ => none

/-- Head branches of the `CreatePullRequest` calls of a trace. -/
def prHeads (l : List RemoteCall) : List String :=
  l.filterMap prHeadOf

def createRefNameOf : RemoteCall → Option String
  | .createRef r _ _ => some r
  | _ => none

/-- Refs of the `CreateRef` calls of a trace. -/
def refsCreated (l : List RemoteCall) : List String :=
  l.filterMap createRefNameOf

def isGetFileCall : RemoteCall → Bool
  | .getFile _ _ _ => true
  | _ => false

def authHeaderOf : RemoteCall → Option String
  | .getRef _ a => a
  | .createRef _ _ a => a
  | .getFile _ _ a => a
  | .putFile _ _ _ _ _ a => a
  | .createPullRequest _ _ _ _ a => a

def hasGetFile (l : List RemoteCall) : Bool :=
  l.any isGetFileCall

/-! ## Shared lemmas -/

lemma jsSlice_eq_self_iff (s : String) (n : Nat) : jsSlice s n = s ↔ s.length ≤ n := by
  obtain ⟨l⟩ := s
  unfold jsSlice
  constructor
  · intro h
    have hd : l.take n = l := congrArg String.data h
    have hl := congrArg List.length hd
    rw [List.length_take] at hl
    simp only [String.length_mk]
    omega
  · intro h
    simp only [String.length_mk] at h
    rw [List.take_of_length_le h]

lemma someExcept_eq_ok_false {p : α → Except String Bool} {l : List α}
    (h : someExcept p l = .ok false) : ∀ x ∈ l, p x = .ok false := by
  induction l with
  | nil => simp
  | cons a t ih =>
    intro x hx
    unfold someExcept at h
    cases hpa : p a with
    | error e => rw [hpa] at h; exact absurd h (by simp)
    | ok b =>
      cases b with
      | true => rw [hpa] at h; exact absurd h (by simp)
      | false =>
        rw [hpa] at h
        rcases List.mem_cons.mp hx with rfl | hxt
        · exact hpa
        · exact ih h x hxt

lemma someExcept_error_mem {p : α → Except String Bool} {l : List α} {e : String}
    (h : someExcept p l = .error e) : ∃ x ∈ l, p x = .error e := by
  induction l with
  | nil => simp [someExcept] at h
  | cons a t ih =>
    unfold someExcept at h
    cases hpa : p a with
    | error e2 =>
      rw [hpa] at h
      exact ⟨a, List.mem_cons_self a t, by simpa using hpa.trans (congrArg Except.error (by injection h))⟩
    | ok b =>
      cases b with
      | true => rw [hpa] at h; exact absurd h (by simp)
      | false =>
        rw [hpa] at h
        obtain ⟨x, hx, hex⟩ := ih h
        exact ⟨x, List.mem_cons_of_mem a hx, hex⟩

lemma someExcept_total {p : α → Except String Bool} {l : List α}
    (h : ∀ x ∈ l, ∃ b, p x = .ok b) : ∃ b, someExcept p l = .ok b := by
  induction l with
  | nil => exact ⟨false, rfl⟩
  | cons a t ih =>
    obtain ⟨b, hb⟩ := h a (List.mem_cons_self a t)
    obtain ⟨c, hc⟩ := ih fun x hx => h x (List.mem_cons_of_mem a hx)
    cases b with
    | true => exact ⟨true, by unfold someExcept; rw [hb]⟩
    | false => exact ⟨c, by unfold someExcept; rw [hb]; exact hc⟩

lemma robotScanPred_eq {newObj r : Json} {b : Bool}
    (h : robotScanPred newObj r = .ok b) : robotMatches newObj r = b := by
  unfold robotScanPred at h
  unfold robotMatches
  cases h1 : jsGet r "id" <;> cases h2 : jsGet newObj "id" <;>
    simp_all

lemma companyScanPred_eq {newObj c : Json} {b : Bool}
    (h : companyScanPred newObj c = .ok b) : companyMatches newObj c = b := by
  unfold companyScanPred at h
  unfold companyMatches
  cases h1 : jsGet c "name" with
  | error e => simp only [h1] at h; exact absurd h (by simp)
  | ok v =>
    simp only [h1] at h
    cases hv : jsToLowerCase v with
    | error e => simp only [hv] at h; exact absurd h (by simp)
    | ok s =>
      simp only [hv] at h
      cases h2 : jsGet newObj "name" with
      | error e => simp only [h2] at h; exact absurd h (by simp)
      | ok w =>
        simp only [h2] at h
        cases hw : jsToLowerCase w with
        | error e => simp only [hw] at h; exact absurd h (by simp)
        | ok t =>
          simp only [hw] at h
          injection h with h
          cases v <;> simp [jsToLowerCase] at hv
          cases w <;> simp [jsToLowerCase] at hw
          simp [h1, h2, hv, hw, h]

lemma robotDupScan_ne_false {arr : List Json} {newObj : Json}
    (h : arr.any (robotMatches newObj) = true) :
    robotDupScan arr newObj ≠ .ok false := by
  intro hc
  have hall := someExcept_eq_ok_false hc
  rcases List.any_eq_true.mp h with ⟨x, hx, hm⟩
  have hb := robotScanPred_eq (hall x hx)
  rw [hm] at hb
  simp at hb

lemma companyDupScan_ne_false {arr : List Json} {newObj : Json}
    (h : arr.any (companyMatches newObj) = true) :
    companyDupScan arr newObj ≠ .ok false := by
  intro hc
  have hall := someExcept_eq_ok_false hc
  rcases List.any_eq_true.mp h with ⟨x, hx, hm⟩
  have hb := companyScanPred_eq (hall x hx)
  rw [hm] at hb
  simp at hb

lemma jsGet_error_shape {v : Json} {k e : String} (h : jsGet v k = .error e) :
    e = "TypeError: Cannot read properties of null (reading " ++ k ++ ")"
      ∨ e = "TypeError: Cannot read properties of undefined (reading " ++ k ++ ")" := by
  cases v with
  | null => injection h with h2; exact Or.inl h2.symm
  | undefined => injection h with h2; exact Or.inr h2.symm
  | bool b => exact absurd h (by simp [jsGet])
  | num n => exact absurd h (by simp [jsGet])
  | str s => exact absurd h (by simp [jsGet])
  | arr l => exact absurd h (by simp [jsGet])
  | obj fields =>
    simp only [jsGet] at h
    cases hl : fields.lookup k <;> simp [hl] at h

lemma robotScanPred_error_shape {newObj r : Json} {e : String}
    (h : robotScanPred newObj r = .error e) :
    e = "TypeError: Cannot read properties of null (reading id)"
      ∨ e = "TypeError: Cannot read properties of undefined (reading id)" := by
  unfold robotScanPred at h
  cases h1 : jsGet r "id" with
  | error e2 =>
    rw [h1] at h
    injection h with h
    subst h
    exact jsGet_error_shape h1
  | ok v =>
    rw [h1] at h
    cases h2 : jsGet newObj "id" with
    | error e2 =>
      rw [h2] at h
      injection h with h
      subst h
      exact jsGet_error_shape h2
    | ok w => rw [h2] at h; exact absurd h (by simp)

lemma companyScanPred_error_shape {newObj c : Json} {e : String}
    (h : companyScanPred newObj c = .error e) :
    e = "TypeError: Cannot read properties of null (reading name)"
      ∨ e = "TypeError: Cannot read properties of undefined (reading name)"
      ∨ e = "TypeError: toLowerCase is not a function" := by
  unfold companyScanPred at h
  cases h1 : jsGet c "name" with
  | error e2 =>
    simp only [h1] at h
    injection h with h
    subst h
    rcases jsGet_error_shape h1 with h2 | h2
    · exact Or.inl h2
    · exact Or.inr (Or.inl h2)
  | ok v =>
    simp only [h1] at h
    cases hv : jsToLowerCase v with
    | error e2 =>
      simp only [hv] at h
      injection h with h
      subst h
      cases v <;> simp [jsToLowerCase] at hv <;> simp [hv]
    | ok s =>
      simp only [hv] at h
      cases h2 : jsGet newObj "name" with
      | error e2 =>
        simp only [h2] at h
        injection h with h
        subst h
        rcases jsGet_error_shape h2 with h3 | h3
        · exact Or.inl h3
        · exact Or.inr (Or.inl h3)
      | ok w =>
        simp only [h2] at h
        cases hw : jsToLowerCase w with
        | error e2 =>
          simp only [hw] at h
          injection h with h
          subst h
          cases w <;> simp [jsToLowerCase] at hw <;> simp [hw]
        | ok t => simp only [hw] at h; exact absurd h (by simp)

/-- Values on which JavaScript property access does not throw. -/
def jsAccessSafe : Json → Bool
  | .null => false
  | .undefined => false
  | _ => true

lemma jsGet_ok_of_safe {v : Json} (k : String) (h : jsAccessSafe v = true) :
    ∃ w, jsGet v k = .ok w := by
  cases v <;> simp [jsAccessSafe] at h <;> simp [jsGet]
  case obj fields => cases fields.lookup k <;> simp

lemma robotScanPred_total {newObj r : Json}
    (hr : jsAccessSafe r = true) (hn : jsAccessSafe newObj = true) :
    ∃ b, robotScanPred newObj r = .ok b := by
  obtain ⟨a, ha⟩ := jsGet_ok_of_safe "id" hr
  obtain ⟨b, hb⟩ := jsGet_ok_of_safe "id" hn
  exact ⟨jsStrictEq a b, by simp [robotScanPred, ha, hb]⟩

lemma companyScanPred_ok {newObj c : Json} {s t : String}
    (h1 : jsGet c "name" = .ok (.str s)) (h2 : jsGet newObj "name" = .ok (.str t)) :
    companyScanPred newObj c = .ok (jsToLower s == jsToLower t) := by
  simp [companyScanPred, h1, h2, jsToLowerCase]

/-! ## Claim theorems -/

/-- C5 counterexample: for a 51-character robot id (matching the id
pattern), the manual helper `buildPRInstructions` emits the untruncated
branch name while the `generate` default is sliced to 60 characters, so
the two paths diverge. -/
theorem c5_counterexample_long_id :
    robotHelperBranch (String.mk (List.replicate 51 'a'))
      ≠ robotGenBranchDefault (String.mk (List.replicate 51 'a')) := by
  decide

/-- C5 (amended): the manual helpers emit exactly the commit messages of
the automated defaults, and exactly the company branch name; the robot
branch names agree precisely when the id has at most 50 characters
(beyond that `generate` truncates to 60 characters while
`buildPRInstructions` does not). -/
theorem c5_manual_vs_automated_naming (name id cname : String) :
    robotHelperCommitMsg name id = robotGenCommitDefault name id ∧
    companyHelperCommitMsg cname = companyGenCommitDefault cname ∧
    companyHelperBranch cname = companyGenBranchDefault cname ∧
    (robotHelperBranch id = robotGenBranchDefault id ↔ id.length ≤ 50) := by
  refine ⟨rfl, rfl, rfl, ?_⟩
  unfold robotHelperBranch robotGenBranchDefault
  rw [eq_comm, jsSlice_eq_self_iff, String.length_append]
  have h10 : ("add-robot-" : String).length = 10 := rfl
  omega

/-- C5 witness: at the concrete contribution name Ion, id ion_2, the
manual and automated names coincide. -/
theorem c5_witness :
    robotHelperBranch "ion_2" = robotGenBranchDefault "ion_2" ∧
    robotHelperCommitMsg "Ion" "ion_2" = robotGenCommitDefault "Ion" "ion_2" :=
  ⟨(c5_manual_vs_automated_naming "Ion" "ion_2" "Acme").2.2.2.mpr (by decide),
   (c5_manual_vs_automated_naming "Ion" "ion_2" "Acme").1⟩

/-- C7: the entry builder is deterministic and idempotent: running
`generate` (resp. `generateCompany`) a second time on the unchanged form
produces a byte-identical generated JSON string. -/
theorem c7_generate_idempotent (f : RobotForm) (s : RobotGenState)
    (g : CompanyForm) (t : CompanyGenState) :
    (generateStep f (generateStep f s)).generatedJson
      = (generateStep f s).generatedJson ∧
    (generateCompanyStep g (generateCompanyStep g t)).generatedCompanyJson
      = (generateCompanyStep g t).generatedCompanyJson := by
  constructor
  · unfold generateStep
    split
    next h => rfl
    next h => simp [h]
  · unfold generateCompanyStep
    split
    next h => rfl
    next h => simp [h]

/-- Robot form holding only the required fields plus one entirely blank
URL row (the state after one click on Add URL). -/
def blankUrlRobotForm : RobotForm :=
  { name := "Ion", id := "ion_2", introduction_year := none, description := "",
    urls := [{ caption := "", url := "" }], photos := [], tags := [], usages := [],
    regulatory := [] }

/-- C8 counterexample: a robot form whose only URL row is blank passes
local validation, yet the built entry carries the key urls bound to an
empty array, and the generated byte output literally contains an empty
array value — contradicting that unpopulated optional array keys are
entirely absent and never appear as empty arrays. -/
theorem c8_counterexample_empty_array :
    validationIssues blankUrlRobotForm = [] ∧
    canGenerate blankUrlRobotForm = true ∧
    (buildRobot blankUrlRobotForm).lookup "urls" = some (Json.arr []) ∧
    (generateStep blankUrlRobotForm ⟨"", false, "", ""⟩).generatedJson
      = "\x7b\n  \"name\": \"Ion\",\n  \"id\": \"ion_2\",\n  \"urls\": []\n\x7d" :=
  ⟨rfl, rfl, rfl, rfl⟩

section BuildOmission

lemma lookup_append (k : String) (l1 l2 : List (String × Json)) :
    (l1 ++ l2).lookup k = ((l1.lookup k).orElse fun _ => l2.lookup k) := by
  induction l1 with
  | nil => simp [List.lookup, Option.orElse]
  | cons p t ih =>
    obtain ⟨k2, v⟩ := p
    simp only [List.cons_append, List.lookup]
    cases h : k == k2
    · simpa [h] using ih
    · simp [h, Option.orElse]

lemma lookup_ite (k : String) (c : Prop) [inst : Decidable c] (l1 l2 : List (String × Json)) :
    (if c then l1 else l2).lookup k = if c then l1.lookup k else l2.lookup k :=
  apply_ite (List.lookup k) c l1 l2

variable (f : RobotForm) (g : CompanyForm)

lemma build_omits_year_none (h : f.introduction_year = none) :
    (buildRobot f).lookup "introduction_year" = none := by
  simp [buildRobot, h, lookup_append, List.lookup, Option.orElse, lookup_ite, ite_self]

lemma build_omits_year_zero (h : f.introduction_year = some 0) :
    (buildRobot f).lookup "introduction_year" = none := by
  simp [buildRobot, h, lookup_append, List.lookup, Option.orElse, lookup_ite, ite_self]

lemma build_omits_description (h : f.description = "") :
    (buildRobot f).lookup "description" = none := by
  cases hy : f.introduction_year <;>
    simp [buildRobot, h, hy, lookup_append, List.lookup, Option.orElse, lookup_ite, ite_self]

lemma build_omits_urls (h : f.urls = []) :
    (buildRobot f).lookup "urls" = none := by
  cases hy : f.introduction_year <;>
    simp [buildRobot, h, hy, lookup_append, List.lookup, Option.orElse, lookup_ite, ite_self]

lemma build_omits_photos (h : f.photos = []) :
    (buildRobot f).lookup "photos" = none := by
  cases hy : f.introduction_year <;>
    simp [buildRobot, h, hy, lookup_append, List.lookup, Option.orElse, lookup_ite, ite_self]

lemma build_omits_tags (h : f.tags = []) :
    (buildRobot f).lookup "tags" = none := by
  cases hy : f.introduction_year <;>
    simp [buildRobot, h, hy, lookup_append, List.lookup, Option.orElse, lookup_ite, ite_self]

lemma build_omits_usages (h : f.usages = []) :
    (buildRobot f).lookup "usages" = none := by
  cases hy : f.introduction_year <;>
    simp [buildRobot, h, hy, lookup_append, List.lookup, Option.orElse, lookup_ite, ite_self]

lemma build_omits_regulatory (h : f.regulatory.filter (fun r => r.body ≠ "") = []) :
    (buildRobot f).lookup "regulatory" = none := by
  have hcond : ¬ ∃ x ∈ f.regulatory, ¬x.body = "" := by
    rintro ⟨x, hx, hb⟩
    have hmem : x ∈ f.regulatory.filter (fun r => r.body ≠ "") :=
      List.mem_filter.mpr ⟨hx, by simp [hb]⟩
    rw [h] at hmem
    simp at hmem
  cases hy : f.introduction_year <;>
    simp [buildRobot, hy, hcond, lookup_append, List.lookup, Option.orElse, lookup_ite, ite_self]

lemma build_company_omits_description (h : g.description = "") :
    (buildCompany g).lookup "description" = none := by
  cases hy : g.employee_count <;>
    simp [buildCompany, h, hy, lookup_append, List.lookup, Option.orElse, lookup_ite, ite_self]

lemma build_company_omits_employee_count (h : g.employee_count = none) :
    (buildCompany g).lookup "employee_count" = none := by
  simp [buildCompany, h, lookup_append, List.lookup, Option.orElse, lookup_ite, ite_self]

lemma build_company_omits_founded_year (h : g.founded_year = "") :
    (buildCompany g).lookup "founded_year" = none := by
  cases hy : g.employee_count <;>
    simp [buildCompany, h, hy, lookup_append, List.lookup, Option.orElse, lookup_ite, ite_self]

lemma build_company_omits_company_type (h : g.company_type = "") :
    (buildCompany g).lookup "company_type" = none := by
  cases hy : g.employee_count <;>
    simp [buildCompany, h, hy, lookup_append, List.lookup, Option.orElse, lookup_ite, ite_self]

lemma build_company_omits_linkedin (h : g.linkedin_url = "") :
    (buildCompany g).lookup "linkedin_url" = none := by
  cases hy : g.employee_count <;>
    simp [buildCompany, h, hy, lookup_append, List.lookup, Option.orElse, lookup_ite, ite_self]

lemma build_company_omits_opencorporates (h : g.opencorporates_url = "") :
    (buildCompany g).lookup "opencorporates_url" = none := by
  cases hy : g.employee_count <;>
    simp [buildCompany, h, hy, lookup_append, List.lookup, Option.orElse, lookup_ite, ite_self]

lemma build_company_omits_urls
    (h : g.urls.filter (fun u => u.caption ≠ "" && u.url ≠ "") = []) :
    (buildCompany g).lookup "urls" = none := by
  have hcond : ¬ ∃ x ∈ g.urls, ¬x.caption = "" ∧ ¬x.url = "" := by
    rintro ⟨x, hx, hc, hu⟩
    have hmem : x ∈ g.urls.filter (fun u => u.caption ≠ "" && u.url ≠ "") :=
      List.mem_filter.mpr ⟨hx, by simp [hc, hu]⟩
    rw [h] at hmem
    simp at hmem
  cases hy : g.employee_count <;>
    simp [buildCompany, hy, hcond, lookup_append, List.lookup, Option.orElse, lookup_ite, ite_self]

lemma build_company_omits_robots (h : g.robots = []) :
    (buildCompany g).lookup "robots" = none := by
  cases hy : g.employee_count <;>
    simp [buildCompany, h, hy, lookup_append, List.lookup, Option.orElse, lookup_ite, ite_self]

lemma build_urls_value (h : f.urls ≠ []) :
    (buildRobot f).lookup "urls"
      = some (Json.arr ((f.urls.filter fun u => u.caption ≠ "" && u.url ≠ "").map urlJson)) := by
  cases hy : f.introduction_year <;>
    simp [buildRobot, h, hy, lookup_append, List.lookup, Option.orElse, lookup_ite, ite_self]

lemma build_photos_value (h : f.photos ≠ []) :
    (buildRobot f).lookup "photos"
      = some (Json.arr ((f.photos.filter fun p => p.url ≠ "").map photoJson)) := by
  cases hy : f.introduction_year <;>
    simp [buildRobot, h, hy, lookup_append, List.lookup, Option.orElse, lookup_ite, ite_self]

end BuildOmission

/-- C8 (amended): the built entry omits every optional scalar field that
is empty, zero or blank, and omits the optional array keys when the
corresponding form arrays are empty (tags, usages, robots), when no
regulatory row has a body, or for company urls when no row is complete;
the url and photo sub-rows are filtered to the complete ones.  However,
for the robot urls and photos keys the emptiness test precedes the
filter, so a form array holding only incomplete rows produces the key
bound to an empty array rather than omitting it. -/
theorem c8_optional_field_omission (f : RobotForm) (g : CompanyForm) :
    (f.introduction_year = none → (buildRobot f).lookup "introduction_year" = none) ∧
    (f.introduction_year = some 0 → (buildRobot f).lookup "introduction_year" = none) ∧
    (f.description = "" → (buildRobot f).lookup "description" = none) ∧
    (f.urls = [] → (buildRobot f).lookup "urls" = none) ∧
    (f.photos = [] → (buildRobot f).lookup "photos" = none) ∧
    (f.tags = [] → (buildRobot f).lookup "tags" = none) ∧
    (f.usages = [] → (buildRobot f).lookup "usages" = none) ∧
    (f.regulatory.filter (fun r => r.body ≠ "") = [] →
      (buildRobot f).lookup "regulatory" = none) ∧
    (g.description = "" → (buildCompany g).lookup "description" = none) ∧
    (g.employee_count = none → (buildCompany g).lookup "employee_count" = none) ∧
    (g.founded_year = "" → (buildCompany g).lookup "founded_year" = none) ∧
    (g.company_type = "" → (buildCompany g).lookup "company_type" = none) ∧
    (g.linkedin_url = "" → (buildCompany g).lookup "linkedin_url" = none) ∧
    (g.opencorporates_url = "" → (buildCompany g).lookup "opencorporates_url" = none) ∧
    (g.urls.filter (fun u => u.caption ≠ "" && u.url ≠ "") = [] →
      (buildCompany g).lookup "urls" = none) ∧
    (g.robots = [] → (buildCompany g).lookup "robots" = none) ∧
    (f.urls ≠ [] → (buildRobot f).lookup "urls"
      = some (Json.arr ((f.urls.filter fun u => u.caption ≠ "" && u.url ≠ "").map urlJson))) ∧
    (f.photos ≠ [] → (buildRobot f).lookup "photos"
      = some (Json.arr ((f.photos.filter fun p => p.url ≠ "").map photoJson))) :=
  ⟨build_omits_year_none f, build_omits_year_zero f, build_omits_description f,
   build_omits_urls f, build_omits_photos f, build_omits_tags f, build_omits_usages f,
   build_omits_regulatory f, build_company_omits_description g,
   build_company_omits_employee_count g, build_company_omits_founded_year g,
   build_company_omits_company_type g, build_company_omits_linkedin g,
   build_company_omits_opencorporates g, build_company_omits_urls g,
   build_company_omits_robots g, build_urls_value f, build_photos_value f⟩

/-- C8 witness: at the blank-URL-row robot form and an all-defaults
company form, the conjuncts evaluate as proved. -/
theorem c8_witness :
    (buildRobot blankUrlRobotForm).lookup "introduction_year" = none ∧
    (buildRobot blankUrlRobotForm).lookup "urls" = some (Json.arr []) ∧
    (buildCompany ⟨"Acme Robotics", "US", "", none, "", "", "", "", [], []⟩).lookup "urls"
      = none := by
  have h := c8_optional_field_omission blankUrlRobotForm
    ⟨"Acme Robotics", "US", "", none, "", "", "", "", [], []⟩
  refine ⟨h.1 rfl, ?_, h.2.2.2.2.2.2.2.2.2.2.2.2.2.2.1 rfl⟩
  have h2 := (h.2.2.2.2.2.2.2.2.2.2.2.2.2.2.2.2.1) (by decide)
  simpa using h2

/-- C9: a non-empty local validation issue list disables generation
(`generate` leaves the whole generator state untouched), and a form
whose only defect is a non-empty id violating the pattern yields the
single issue demanded by the specification. -/
theorem c9_validation_blocks_generation :
    (∀ (f : RobotForm) (s : RobotGenState),
      validationIssues f ≠ [] → generateStep f s = s) ∧
    (∀ name id : String, name ≠ "" → id ≠ "" → idPatternTest id = false →
      validationIssues ⟨name, id, none, "", [], [], [], [], []⟩
        = ["ID must match ^[A-Za-z0-9_.&]+$."]) := by
  constructor
  · intro f s h
    simp [generateStep, h]
  · intro name id h1 h2 h3
    simp [validationIssues, validIdOf, urlIssues, photoIssues, regIssues, h1, h2, h3]

/-- C9 witness at the specification scenario id = "bad id!". -/
theorem c9_witness :
    validationIssues ⟨"Ion", "bad id!", none, "", [], [], [], [], []⟩
      = ["ID must match ^[A-Za-z0-9_.&]+$."] ∧
    generateStep ⟨"Ion", "bad id!", none, "", [], [], [], [], []⟩ ⟨"", false, "", ""⟩
      = ⟨"", false, "", ""⟩ := by
  constructor
  · exact c9_validation_blocks_generation.2 "Ion" "bad id!" (by decide) (by decide) (by decide)
  · exact c9_validation_blocks_generation.1 _ _ (by decide)

/-! ## Trace helper lemmas and fixtures -/

/-- Authorization headers of the `GetFile` calls of a trace. -/
def getFileAuths (l : List RemoteCall) : List (Option String) :=
  l.filterMap fun c => match c with
    | .getFile _ _ a => some a
    | _ => none

/-- A built robot entry, as `JSON.parse` returns it from the generated
JSON of the form name Ion, id ion_2. -/
def ionRobotObj : Json := .obj [("name", .str "Ion"), ("id", .str "ion_2")]

/-- A built company entry for name Acme, country US. -/
def acmeCompanyObj : Json := .obj [("name", .str "Acme"), ("country", .str "US")]

/-- A remote store answering every call favourably: branch creation
reports 422 (ref already exists), the dataset file parses to the empty
array. -/
def envAllOk : RemoteEnv :=
  { getRefOk := true, mainSha := "mainsha", createRefStatus := 422, getFileOk := true,
    fileSha := "filesha", fileParsed := some [], putFileOk := true, prOk := true,
    prUrl := "https://github.com/medmachina/medmachina.github.io/pull/1" }

lemma robotDupScan_error_ne {arr : List Json} {newObj : Json} {e : String}
    (h : robotDupScan arr newObj = .error e) : e ≠ "Failed to create branch" := by
  obtain ⟨x, hx, hpx⟩ := someExcept_error_mem h
  rcases robotScanPred_error_shape hpx with rfl | rfl <;> decide

lemma companyDupScan_error_ne {arr : List Json} {newObj : Json} {e : String}
    (h : companyDupScan arr newObj = .error e) : e ≠ "Failed to create branch" := by
  obtain ⟨x, hx, hpx⟩ := someExcept_error_mem h
  rcases companyScanPred_error_shape hpx with rfl | rfl | rfl <;> decide

set_option maxHeartbeats 1000000 in
/-- Shape of the remote calls of a robot submission: every branch name
that appears belongs to the effective branch, and a successful run
issues exactly one branch creation, one file write and one pull
request. -/
lemma submitRobot_branch_shape (token : String) (gen : Option Json) (issues : Bool)
    (bIn cIn fid : String) (env : RemoteEnv) :
    (putBranches (submitRobot token gen issues bIn cIn fid env).calls = []
      ∨ putBranches (submitRobot token gen issues bIn cIn fid env).calls
          = [robotBranchName bIn fid]) ∧
    (refsCreated (submitRobot token gen issues bIn cIn fid env).calls = []
      ∨ refsCreated (submitRobot token gen issues bIn cIn fid env).calls
          = ["refs/heads/" ++ robotBranchName bIn fid]) ∧
    (prHeads (submitRobot token gen issues bIn cIn fid env).calls = []
      ∨ prHeads (submitRobot token gen issues bIn cIn fid env).calls
          = [robotBranchName bIn fid]) ∧
    ((∃ u, (submitRobot token gen issues bIn cIn fid env).result = .success u) →
      putBranches (submitRobot token gen issues bIn cIn fid env).calls
          = [robotBranchName bIn fid] ∧
      refsCreated (submitRobot token gen issues bIn cIn fid env).calls
          = ["refs/heads/" ++ robotBranchName bIn fid] ∧
      prHeads (submitRobot token gen issues bIn cIn fid env).calls
          = [robotBranchName bIn fid]) := by
  unfold submitRobot
  repeat' split
  all_goals simp_all [putBranches, putBranchOf, refsCreated, createRefNameOf, prHeads, prHeadOf]

set_option maxHeartbeats 1000000 in
/-- Company analogue of the branch-shape lemma. -/
lemma submitCompany_branch_shape (token : String) (gen : Option Json) (issues : Bool)
    (bIn cIn fnm : String) (env : RemoteEnv) :
    (putBranches (submitCompany token gen issues bIn cIn fnm env).calls = []
      ∨ putBranches (submitCompany token gen issues bIn cIn fnm env).calls
          = [companyBranchName bIn fnm]) ∧
    (refsCreated (submitCompany token gen issues bIn cIn fnm env).calls = []
      ∨ refsCreated (submitCompany token gen issues bIn cIn fnm env).calls
          = ["refs/heads/" ++ companyBranchName bIn fnm]) ∧
    (prHeads (submitCompany token gen issues bIn cIn fnm env).calls = []
      ∨ prHeads (submitCompany token gen issues bIn cIn fnm env).calls
          = [companyBranchName bIn fnm]) ∧
    ((∃ u, (submitCompany token gen issues bIn cIn fnm env).result = .success u) →
      putBranches (submitCompany token gen issues bIn cIn fnm env).calls
          = [companyBranchName bIn fnm] ∧
      refsCreated (submitCompany token gen issues bIn cIn fnm env).calls
          = ["refs/heads/" ++ companyBranchName bIn fnm] ∧
      prHeads (submitCompany token gen issues bIn cIn fnm env).calls
          = [companyBranchName bIn fnm]) := by
  unfold submitCompany
  repeat' split
  all_goals simp_all [putBranches, putBranchOf, refsCreated, createRefNameOf, prHeads, prHeadOf]

set_option maxHeartbeats 1000000 in
/-- When the protocol reaches the duplicate scan, its outcome decides
the rest of the robot run. -/
lemma submitRobot_scan_outcome (token : String) (newObj : Json) (bIn cIn fid : String)
    (env : RemoteEnv) (arr : List Json)
    (h1 : token ≠ "") (h3 : env.getRefOk = true)
    (h4 : env.createRefStatus = 422 ∨ statusOk env.createRefStatus = true)
    (h5 : env.getFileOk = true) (h6 : env.fileParsed = some arr) :
    (∀ e, robotDupScan arr newObj = .error e →
      (submitRobot token (some newObj) false bIn cIn fid env).result = .fatal e ∧
      putBranches (submitRobot token (some newObj) false bIn cIn fid env).calls = [] ∧
      prHeads (submitRobot token (some newObj) false bIn cIn fid env).calls = []) ∧
    (robotDupScan arr newObj = .ok true →
      (submitRobot token (some newObj) false bIn cIn fid env).result
        = .alreadyExists ("Robot id " ++ jsFieldDisplay newObj "id" ++ " already exists.") ∧
      putBranches (submitRobot token (some newObj) false bIn cIn fid env).calls = [] ∧
      prHeads (submitRobot token (some newObj) false bIn cIn fid env).calls = []) := by
  rcases h4 with h4 | h4 <;>
    · unfold submitRobot
      repeat' split
      all_goals simp_all [putBranches, putBranchOf, prHeads, prHeadOf]

set_option maxHeartbeats 1000000 in
/-- Company analogue of the scan-outcome lemma. -/
lemma submitCompany_scan_outcome (token : String) (newObj : Json) (bIn cIn fnm : String)
    (env : RemoteEnv) (arr : List Json)
    (h1 : token ≠ "") (h3 : env.getRefOk = true)
    (h4 : env.createRefStatus = 422 ∨ statusOk env.createRefStatus = true)
    (h5 : env.getFileOk = true) (h6 : env.fileParsed = some arr) :
    (∀ e, companyDupScan arr newObj = .error e →
      (submitCompany token (some newObj) false bIn cIn fnm env).result = .fatal e ∧
      putBranches (submitCompany token (some newObj) false bIn cIn fnm env).calls = [] ∧
      prHeads (submitCompany token (some newObj) false bIn cIn fnm env).calls = []) ∧
    (companyDupScan arr newObj = .ok true →
      (submitCompany token (some newObj) false bIn cIn fnm env).result
        = .alreadyExists ("Company " ++ jsFieldDisplay newObj "name" ++ " already exists.") ∧
      putBranches (submitCompany token (some newObj) false bIn cIn fnm env).calls = [] ∧
      prHeads (submitCompany token (some newObj) false bIn cIn fnm env).calls = []) := by
  rcases h4 with h4 | h4 <;>
    · unfold submitCompany
      repeat' split
      all_goals simp_all [putBranches, putBranchOf, prHeads, prHeadOf]

/-! ## Claim theorems over the submission traces -/

/-- C1 counterexample: with the user-editable branch field set to main,
branch creation receives the already-exists response (422) which the
code treats as success, and the submission then performs its PutFile
directly on main and completes successfully — a remote write targeting
the default branch. -/
theorem c1_counterexample_branch_main :
    putBranches (submitRobot "tok" (some ionRobotObj) false "main" "" "ion_2" envAllOk).calls
      = ["main"] ∧
    (submitRobot "tok" (some ionRobotObj) false "main" "" "ion_2" envAllOk).result
      = .success "https://github.com/medmachina/medmachina.github.io/pull/1" :=
  ⟨rfl, rfl⟩

/-- C1 (amended): every PutFile of a submission run carries the
effective branch name (the user-supplied branch field, else the
generated default), so no write targets main whenever that effective
name differs from main; and a successful run creates exactly one branch
ref, writes exactly one file on that branch and opens exactly one pull
request from it.  The original claim fails only because the
user-editable branch field may itself name main. -/
theorem c1_branch_isolation (token : String) (gen : Option Json) (issues : Bool)
    (bIn cIn fid fnm : String) (env : RemoteEnv) :
    (putBranches (submitRobot token gen issues bIn cIn fid env).calls = []
      ∨ putBranches (submitRobot token gen issues bIn cIn fid env).calls
          = [robotBranchName bIn fid]) ∧
    (robotBranchName bIn fid ≠ "main" →
      "main" ∉ putBranches (submitRobot token gen issues bIn cIn fid env).calls) ∧
    (∀ u, (submitRobot token gen issues bIn cIn fid env).result = .success u →
      putBranches (submitRobot token gen issues bIn cIn fid env).calls
          = [robotBranchName bIn fid] ∧
      refsCreated (submitRobot token gen issues bIn cIn fid env).calls
          = ["refs/heads/" ++ robotBranchName bIn fid] ∧
      prHeads (submitRobot token gen issues bIn cIn fid env).calls
          = [robotBranchName bIn fid]) ∧
    (putBranches (submitCompany token gen issues bIn cIn fnm env).calls = []
      ∨ putBranches (submitCompany token gen issues bIn cIn fnm env).calls
          = [companyBranchName bIn fnm]) ∧
    (companyBranchName bIn fnm ≠ "main" →
      "main" ∉ putBranches (submitCompany token gen issues bIn cIn fnm env).calls) ∧
    (∀ u, (submitCompany token gen issues bIn cIn fnm env).result = .success u →
      putBranches (submitCompany token gen issues bIn cIn fnm env).calls
          = [companyBranchName bIn fnm] ∧
      refsCreated (submitCompany token gen issues bIn cIn fnm env).calls
          = ["refs/heads/" ++ companyBranchName bIn fnm] ∧
      prHeads (submitCompany token gen issues bIn cIn fnm env).calls
          = [companyBranchName bIn fnm]) := by
  obtain ⟨hp, hr, hh, hs⟩ := submitRobot_branch_shape token gen issues bIn cIn fid env
  obtain ⟨hp2, hr2, hh2, hs2⟩ := submitCompany_branch_shape token gen issues bIn cIn fnm env
  refine ⟨hp, ?_, fun u hu => hs ⟨u, hu⟩, hp2, ?_, fun u hu => hs2 ⟨u, hu⟩⟩
  · intro hne hmem
    rcases hp with h | h <;> rw [h] at hmem <;> simp at hmem
    exact hne hmem.symm
  · intro hne hmem
    rcases hp2 with h | h <;> rw [h] at hmem <;> simp at hmem
    exact hne hmem.symm

/-- C1 witness: a default-named robot submission against the favourable
store writes only the branch add-robot-ion_2, never main. -/
theorem c1_witness :
    putBranches (submitRobot "tok" (some ionRobotObj) false "" "" "ion_2" envAllOk).calls
      = [robotBranchName "" "ion_2"] ∧
    "main" ∉ putBranches (submitRobot "tok" (some ionRobotObj) false "" "" "ion_2" envAllOk).calls := by
  have h := c1_branch_isolation "tok" (some ionRobotObj) false "" "" "ion_2" "Acme" envAllOk
  exact ⟨(h.2.2.1 _ rfl).1, h.2.1 (by decide)⟩

/-- C2 counterexample: a companies dataset that does contain a
case-insensitive duplicate of the submitted name, but whose first
element lacks a name field, makes the duplicate scan throw: the run
reports the generic fatal TypeError result, not the non-fatal already
exists result the claim promises for every dataset containing the
natural key. -/
theorem c2_counterexample_company_scan_throw :
    [Json.obj [], Json.obj [("name", Json.str "acme")]].any (companyMatches acmeCompanyObj)
      = true ∧
    (submitCompany "tok" (some acmeCompanyObj) false "" "" "Acme"
        { envAllOk with fileParsed := some [Json.obj [], Json.obj [("name", Json.str "acme")]] }).result
      = .fatal "TypeError: toLowerCase is not a function" ∧
    (submitCompany "tok" (some acmeCompanyObj) false "" "" "Acme"
        { envAllOk with fileParsed := some [Json.obj [], Json.obj [("name", Json.str "acme")]] }).result
      ≠ .alreadyExists ("Company " ++ jsFieldDisplay acmeCompanyObj "name" ++ " already exists.") := by
  refine ⟨by decide, rfl, by decide⟩

/-- C2 (amended): when a submission reaches the duplicate-key scan and
the scan completes with a match, the run halts with the non-fatal
already-exists result and issues no PutFile and no CreatePullRequest;
and whenever the dataset contains a matching entry at all — even if the
scan instead throws on an earlier malformed element — no PutFile and no
CreatePullRequest is ever issued.  The original claim fails only in that
a malformed element placed before the duplicate turns the result into a
generic fatal error instead of already exists. -/
theorem c2_duplicate_key_halts (token : String) (newObj : Json) (issues : Bool)
    (bIn cIn fid fnm : String) (env : RemoteEnv) (arr : List Json)
    (h1 : token ≠ "") (h2 : issues = false) (h3 : env.getRefOk = true)
    (h4 : env.createRefStatus = 422 ∨ statusOk env.createRefStatus = true)
    (h5 : env.getFileOk = true) (h6 : env.fileParsed = some arr) :
    ((robotDupScan arr newObj = .ok true →
      (submitRobot token (some newObj) issues bIn cIn fid env).result
        = .alreadyExists ("Robot id " ++ jsFieldDisplay newObj "id" ++ " already exists.") ∧
      putBranches (submitRobot token (some newObj) issues bIn cIn fid env).calls = [] ∧
      prHeads (submitRobot token (some newObj) issues bIn cIn fid env).calls = []) ∧
     (arr.any (robotMatches newObj) = true →
      putBranches (submitRobot token (some newObj) issues bIn cIn fid env).calls = [] ∧
      prHeads (submitRobot token (some newObj) issues bIn cIn fid env).calls = [])) ∧
    ((companyDupScan arr newObj = .ok true →
      (submitCompany token (some newObj) issues bIn cIn fnm env).result
        = .alreadyExists ("Company " ++ jsFieldDisplay newObj "name" ++ " already exists.") ∧
      putBranches (submitCompany token (some newObj) issues bIn cIn fnm env).calls = [] ∧
      prHeads (submitCompany token (some newObj) issues bIn cIn fnm env).calls = []) ∧
     (arr.any (companyMatches newObj) = true →
      putBranches (submitCompany token (some newObj) issues bIn cIn fnm env).calls = [] ∧
      prHeads (submitCompany token (some newObj) issues bIn cIn fnm env).calls = [])) := by
  subst h2
  have hr := submitRobot_scan_outcome token newObj bIn cIn fid env arr h1 h3 h4 h5 h6
  have hc := submitCompany_scan_outcome token newObj bIn cIn fnm env arr h1 h3 h4 h5 h6
  refine ⟨⟨hr.2, fun hany => ?_⟩, ⟨hc.2, fun hany => ?_⟩⟩
  · cases hscan : robotDupScan arr newObj with
    | error e => exact ⟨(hr.1 e hscan).2.1, (hr.1 e hscan).2.2⟩
    | ok b =>
      cases b with
      | false => exact absurd hscan (robotDupScan_ne_false hany)
      | true => exact ⟨(hr.2 hscan).2.1, (hr.2 hscan).2.2⟩
  · cases hscan : companyDupScan arr newObj with
    | error e => exact ⟨(hc.1 e hscan).2.1, (hc.1 e hscan).2.2⟩
    | ok b =>
      cases b with
      | false => exact absurd hscan (companyDupScan_ne_false hany)
      | true => exact ⟨(hc.2 hscan).2.1, (hc.2 hscan).2.2⟩

/-- C2 witness: submitting robot id ion_2 against a dataset already
holding that id halts with the already-exists result; no PutFile, no
CreatePullRequest. -/
theorem c2_witness :
    (submitRobot "tok" (some ionRobotObj) false "" "" "ion_2"
        { envAllOk with fileParsed := some [ionRobotObj] }).result
      = .alreadyExists "Robot id ion_2 already exists." ∧
    putBranches (submitRobot "tok" (some ionRobotObj) false "" "" "ion_2"
        { envAllOk with fileParsed := some [ionRobotObj] }).calls = [] ∧
    prHeads (submitRobot "tok" (some ionRobotObj) false "" "" "ion_2"
        { envAllOk with fileParsed := some [ionRobotObj] }).calls = [] := by
  have h := c2_duplicate_key_halts "tok" ionRobotObj false "" "" "ion_2" "Acme"
    { envAllOk with fileParsed := some [ionRobotObj] } [ionRobotObj]
    (by decide) rfl rfl (Or.inl rfl) rfl rfl
  exact h.1.1 rfl

/-- C3: every PutFile issued by a submission run is conditioned on
exactly the SHA returned by the dataset read of step 3 (it is passed as
the expected SHA), and when the store rejects the PutFile the run never
issues CreatePullRequest and terminates with the step-identified update
failure. -/
theorem c3_putfile_sha_and_conflict_guard (token : String) (gen : Option Json) (issues : Bool)
    (bIn cIn fid fnm : String) (env : RemoteEnv) :
    (putShas (submitRobot token gen issues bIn cIn fid env).calls = []
      ∨ putShas (submitRobot token gen issues bIn cIn fid env).calls = [env.fileSha]) ∧
    (env.putFileOk = false →
      prHeads (submitRobot token gen issues bIn cIn fid env).calls = [] ∧
      (putShas (submitRobot token gen issues bIn cIn fid env).calls ≠ [] →
        (submitRobot token gen issues bIn cIn fid env).result
          = .fatal "Failed to update robots.json")) ∧
    (putShas (submitCompany token gen issues bIn cIn fnm env).calls = []
      ∨ putShas (submitCompany token gen issues bIn cIn fnm env).calls = [env.fileSha]) ∧
    (env.putFileOk = false →
      prHeads (submitCompany token gen issues bIn cIn fnm env).calls = [] ∧
      (putShas (submitCompany token gen issues bIn cIn fnm env).calls ≠ [] →
        (submitCompany token gen issues bIn cIn fnm env).result
          = .fatal "Failed to update companies.json")) := by
  refine ⟨?_, ?_, ?_, ?_⟩
  · unfold submitRobot
    repeat' split
    all_goals simp_all [putShas, putShaOf]
  · unfold submitRobot
    repeat' split
    all_goals simp_all [putShas, putShaOf, prHeads, prHeadOf]
  · unfold submitCompany
    repeat' split
    all_goals simp_all [putShas, putShaOf]
  · unfold submitCompany
    repeat' split
    all_goals simp_all [putShas, putShaOf, prHeads, prHeadOf]

/-- C3 witness: with the store rejecting the conditional update (stale
expected SHA), the robot run stops at the update failure with no pull
request, even though a PutFile carrying the step-3 SHA was issued. -/
theorem c3_witness :
    prHeads (submitRobot "tok" (some ionRobotObj) false "" "" "ion_2"
        { envAllOk with putFileOk := false }).calls = [] ∧
    (submitRobot "tok" (some ionRobotObj) false "" "" "ion_2"
        { envAllOk with putFileOk := false }).result
      = .fatal "Failed to update robots.json" := by
  have h := c3_putfile_sha_and_conflict_guard "tok" (some ionRobotObj) false "" "" "ion_2" "Acme"
    { envAllOk with putFileOk := false }
  exact ⟨(h.2.1 rfl).1, (h.2.1 rfl).2 (by decide)⟩

/-- C4: a 422 (ref already exists) response to CreateRef is treated as
success: the protocol continues to the dataset read, and the run never
terminates with the branch-creation failure — so repeating a submission
whose branch already exists is not fatal at the second CreateRef. -/
theorem c4_ref_already_exists_nonfatal (token : String) (newObj : Json)
    (bIn cIn fid fnm : String) (env : RemoteEnv)
    (h1 : token ≠ "") (h3 : env.getRefOk = true) (h4 : env.createRefStatus = 422) :
    (hasGetFile (submitRobot token (some newObj) false bIn cIn fid env).calls = true ∧
      (submitRobot token (some newObj) false bIn cIn fid env).result
        ≠ .fatal "Failed to create branch") ∧
    (hasGetFile (submitCompany token (some newObj) false bIn cIn fnm env).calls = true ∧
      (submitCompany token (some newObj) false bIn cIn fnm env).result
        ≠ .fatal "Failed to create branch") := by
  constructor
  · unfold submitRobot
    repeat' split
    all_goals simp_all [hasGetFile, isGetFileCall]
    all_goals (rename_i heq; exact robotDupScan_error_ne heq)
  · unfold submitCompany
    repeat' split
    all_goals simp_all [hasGetFile, isGetFileCall]
    all_goals (rename_i heq; exact companyDupScan_error_ne heq)

/-- C4 witness: against the favourable store (whose CreateRef answers
422), the robot run reads the dataset and does not fail at branch
creation. -/
theorem c4_witness :
    hasGetFile (submitRobot "tok" (some ionRobotObj) false "" "" "ion_2" envAllOk).calls = true ∧
    (submitRobot "tok" (some ionRobotObj) false "" "" "ion_2" envAllOk).result
      ≠ .fatal "Failed to create branch" :=
  (c4_ref_already_exists_nonfatal "tok" ionRobotObj "" "" "ion_2" "Acme" envAllOk
    (by decide) rfl rfl).1

/-- C6 counterexample: in a complete successful robot run, the dataset
read (GetFile) is issued with no Authorization header at all, refuting
that every remote call carries the bearer credential. -/
theorem c6_counterexample_getfile_unauthenticated :
    getFileAuths (submitRobot "tok" (some ionRobotObj) false "" "" "ion_2" envAllOk).calls
      = [none] ∧
    (submitRobot "tok" (some ionRobotObj) false "" "" "ion_2" envAllOk).result
      = .success "https://github.com/medmachina/medmachina.github.io/pull/1" :=
  ⟨rfl, rfl⟩

/-- C6 (amended): every remote call of a submission run except the
dataset read carries the Authorization header Bearer token; the GetFile
dataset read alone is issued unauthenticated. -/
theorem c6_auth_headers (token : String) (gen : Option Json) (issues : Bool)
    (bIn cIn fid fnm : String) (env : RemoteEnv) :
    (∀ c ∈ (submitRobot token gen issues bIn cIn fid env).calls,
      authHeaderOf c = if isGetFileCall c then none else some ("Bearer " ++ token)) ∧
    (∀ c ∈ (submitCompany token gen issues bIn cIn fnm env).calls,
      authHeaderOf c = if isGetFileCall c then none else some ("Bearer " ++ token)) := by
  constructor
  · unfold submitRobot
    repeat' split
    all_goals intro c hc
    all_goals simp_all [authHeaderOf, isGetFileCall]
    all_goals rcases hc with rfl | rfl | rfl | rfl | rfl <;> rfl
  · unfold submitCompany
    repeat' split
    all_goals intro c hc
    all_goals simp_all [authHeaderOf, isGetFileCall]
    all_goals rcases hc with rfl | rfl | rfl | rfl | rfl <;> rfl

/-- C6 witness: the initial GetRef call of a run carries the bearer
header. -/
theorem c6_witness :
    authHeaderOf (RemoteCall.getRef "main" (some ("Bearer " ++ "tok")))
      = some ("Bearer " ++ "tok") := by
  have h := (c6_auth_headers "tok" (some ionRobotObj) false "" "" "ion_2" "Acme"
    { envAllOk with getRefOk := false }).1
  have hm : RemoteCall.getRef "main" (some ("Bearer " ++ "tok"))
      ∈ (submitRobot "tok" (some ionRobotObj) false "" "" "ion_2"
          { envAllOk with getRefOk := false }).calls := by decide
  simpa using h _ hm

/-- C10 counterexample: an element lacking a name placed after the
first case-insensitive duplicate is never reached by the short-circuit
scan, so the run reports already exists rather than throwing — the
claim that any name-less element makes submitCompanyToGitHub throw is
too strong. -/
theorem c10_counterexample_short_circuit :
    (∃ c ∈ [Json.obj [("name", Json.str "acme")], Json.obj []],
      jsGet c "name" = .ok Json.undefined) ∧
    (submitCompany "tok" (some acmeCompanyObj) false "" "" "Acme"
        { envAllOk with fileParsed := some [Json.obj [("name", Json.str "acme")], Json.obj []] }).result
      = .alreadyExists ("Company " ++ jsFieldDisplay acmeCompanyObj "name" ++ " already exists.") := by
  refine ⟨⟨Json.obj [], by simp, rfl⟩, rfl⟩

/-- C10 (amended): the company duplicate scan is total whenever every
element carries a string name (and the robot scan whenever elements and
the new entry are not null or undefined); when the company scan does
throw — which requires an element without a string name before the
first match — the run reports the generic fatal error carrying the
thrown message, with no PutFile and no CreatePullRequest, instead of
the already-exists result or a continued protocol. -/
theorem c10_company_scan_totality :
    (∀ (arr : List Json) (newObj : Json) (nm : String),
      jsGet newObj "name" = .ok (.str nm) →
      (∀ c ∈ arr, ∃ s, jsGet c "name" = .ok (.str s)) →
      ∃ b, companyDupScan arr newObj = .ok b) ∧
    (∀ (arr : List Json) (newObj : Json),
      jsAccessSafe newObj = true →
      (∀ r ∈ arr, jsAccessSafe r = true) →
      ∃ b, robotDupScan arr newObj = .ok b) ∧
    (∀ (token : String) (newObj : Json) (bIn cIn fnm : String) (env : RemoteEnv)
        (arr : List Json) (e : String),
      token ≠ "" → env.getRefOk = true →
      (env.createRefStatus = 422 ∨ statusOk env.createRefStatus = true) →
      env.getFileOk = true → env.fileParsed = some arr →
      companyDupScan arr newObj = .error e →
      (submitCompany token (some newObj) false bIn cIn fnm env).result = .fatal e ∧
      putBranches (submitCompany token (some newObj) false bIn cIn fnm env).calls = [] ∧
      prHeads (submitCompany token (some newObj) false bIn cIn fnm env).calls = []) := by
  refine ⟨?_, ?_, ?_⟩
  · intro arr newObj nm hn hall
    refine someExcept_total fun c hc => ?_
    obtain ⟨s, hs⟩ := hall c hc
    exact ⟨jsToLower s == jsToLower nm, companyScanPred_ok hs hn⟩
  · intro arr newObj hn hall
    exact someExcept_total fun r hr => robotScanPred_total (hall r hr) hn
  · intro token newObj bIn cIn fnm env arr e h1 h3 h4 h5 h6 hscan
    exact (submitCompany_scan_outcome token newObj bIn cIn fnm env arr h1 h3 h4 h5 h6).1 e hscan

/-- C10 witness: a dataset of one well-named element makes the company
scan total, and a name-less first element makes the run fail with the
thrown TypeError and no write. -/
theorem c10_witness :
    (∃ b, companyDupScan [Json.obj [("name", Json.str "Zeta")]] acmeCompanyObj = .ok b) ∧
    (submitCompany "tok" (some acmeCompanyObj) false "" "" "Acme"
        { envAllOk with fileParsed := some [Json.obj []] }).result
      = .fatal "TypeError: toLowerCase is not a function" := by
  constructor
  · exact c10_company_scan_totality.1 [Json.obj [("name", Json.str "Zeta")]] acmeCompanyObj
      "Acme" rfl (by intro c hc; simp at hc; subst hc; exact ⟨"Zeta", rfl⟩)
  · exact (c10_company_scan_totality.2.2 "tok" acmeCompanyObj "" "" "Acme"
      { envAllOk with fileParsed := some [Json.obj []] } [Json.obj []]
      "TypeError: toLowerCase is not a function"
      (by decide) rfl (Or.inl rfl) rfl rfl rfl).1

end MedMachina

